import Mathlib

/-!
Verification development for the orbital-planner repository: a shallow
embedding of the transfer solvers, the RK4 trajectory integrator, the
result-assembly and unit-normalization glue, the UI slider-range update,
and the Python-module loader, together with theorems about them.

Real-valued physics is embedded over the real numbers with Real.sqrt,
abstracting the double-precision arithmetic of the source.
-/

/-! ## Transfer solver data model -/

/-- Hohmann transfer result: two impulses and a time of flight. -/
structure TransferResult where
  dv1 : ℝ
  dv2 : ℝ
  dv_total : ℝ
  tof : ℝ

/-- Bi-elliptic transfer result: three impulses and a time of flight. -/
structure BiellipticResult where
  dv1 : ℝ
  dv2 : ℝ
  dv3 : ℝ
  dv_total : ℝ
  tof : ℝ

/-- Invalid bi-elliptic geometry, carrying the violating parameter values. -/
structure InvalidGeometryError where
  r1 : ℝ
  r2 : ℝ
  rb : ℝ

/-- Modelled from the spec: orbital_mechanics.py is not under src/.
Hohmann transfer between circular orbits of radii r1 and r2 around a body
of gravitational parameter mu, following the stepwise algorithm of the
design (transfer semi-major axis, vis-viva speeds, absolute-value delta-v,
half-period time of flight). -/
noncomputable def hohmann_transfer (r1 r2 mu : ℝ) : TransferResult :=
  let a_t := (r1 + r2) / 2
  let v1 := Real.sqrt (mu / r1)
  let v2 := Real.sqrt (mu / r2)
  let vt1 := Real.sqrt (mu * (2 / r1 - 1 / a_t))
  let vt2 := Real.sqrt (mu * (2 / r2 - 1 / a_t))
  let dv1 := |vt1 - v1|
  let dv2 := |v2 - vt2|
  { dv1 := dv1
    dv2 := dv2
    dv_total := dv1 + dv2
    tof := Real.pi * Real.sqrt (a_t ^ 3 / mu) }

/-- Modelled from the spec: orbital_mechanics.py is not under src/.
Bi-elliptic transfer via an intermediate apoapsis rb; fails with
InvalidGeometryError when rb does not exceed both endpoint radii. -/
noncomputable def bielliptic_transfer (r1 r2 rb mu : ℝ) :
    Except InvalidGeometryError BiellipticResult :=
  if rb ≤ max r1 r2 then Except.error ⟨r1, r2, rb⟩
  else
    let a1 := (r1 + rb) / 2
    let a2 := (rb + r2) / 2
    let dv1 := |Real.sqrt (mu * (2 / r1 - 1 / a1)) - Real.sqrt (mu / r1)|
    let dv2 := |Real.sqrt (mu * (2 / rb - 1 / a2)) - Real.sqrt (mu * (2 / rb - 1 / a1))|
    let dv3 := |Real.sqrt (mu / r2) - Real.sqrt (mu * (2 / r2 - 1 / a2))|
    Except.ok
      { dv1 := dv1
        dv2 := dv2
        dv3 := dv3
        dv_total := dv1 + dv2 + dv3
        tof := Real.pi * Real.sqrt (a1 ^ 3 / mu) + Real.pi * Real.sqrt (a2 ^ 3 / mu) }

/-! ## Claims about the transfer solver -/

/-- C1: for every r1 > 0, r2 > 0, mu > 0, hohmann_transfer returns exactly
the closed-form Hohmann formulas: with a_t = (r1 + r2)/2 and
v_t(r) = sqrt (mu * (2/r - 1/a_t)), dv1 = |v_t r1 - sqrt (mu/r1)|,
dv2 = |sqrt (mu/r2) - v_t r2|, dv_total = dv1 + dv2, and
tof = pi * sqrt (a_t^3 / mu). -/
theorem hohmann_formulas (r1 r2 mu : ℝ) (h1 : 0 < r1) (h2 : 0 < r2) (hmu : 0 < mu) :
    (hohmann_transfer r1 r2 mu).dv1 =
      |Real.sqrt (mu * (2 / r1 - 1 / ((r1 + r2) / 2))) - Real.sqrt (mu / r1)| ∧
    (hohmann_transfer r1 r2 mu).dv2 =
      |Real.sqrt (mu / r2) - Real.sqrt (mu * (2 / r2 - 1 / ((r1 + r2) / 2)))| ∧
    (hohmann_transfer r1 r2 mu).dv_total =
      (hohmann_transfer r1 r2 mu).dv1 + (hohmann_transfer r1 r2 mu).dv2 ∧
    (hohmann_transfer r1 r2 mu).tof =
      Real.pi * Real.sqrt (((r1 + r2) / 2) ^ 3 / mu) :=
  ⟨rfl, rfl, rfl, rfl⟩

theorem hohmann_formulas_witness :
    (0 : ℝ) < 1 ∧ (0 : ℝ) < 2 ∧
    (hohmann_transfer 1 2 1).tof = Real.pi * Real.sqrt (((1 + 2) / 2) ^ 3 / 1) :=
  ⟨by norm_num, by norm_num,
    (hohmann_formulas 1 2 1 (by norm_num) (by norm_num) (by norm_num)).2.2.2⟩

/-- C2: for every r1 > 0, r2 > 0, mu > 0, bielliptic_transfer fails with
InvalidGeometryError (carrying the violating inputs) whenever
rb ≤ max r1 r2, and succeeds with a BiellipticResult whenever
rb > max r1 r2. -/
theorem bielliptic_geometry (r1 r2 rb mu : ℝ)
    (h1 : 0 < r1) (h2 : 0 < r2) (hmu : 0 < mu) :
    (rb ≤ max r1 r2 →
      bielliptic_transfer r1 r2 rb mu = Except.error ⟨r1, r2, rb⟩) ∧
    (max r1 r2 < rb →
      ∃ v, bielliptic_transfer r1 r2 rb mu = Except.ok v) := by
  constructor
  · intro hle
    simp only [bielliptic_transfer, if_pos hle]
  · intro hgt
    simp only [bielliptic_transfer, if_neg (not_le.mpr hgt)]
    exact ⟨_, rfl⟩

theorem bielliptic_geometry_witness :
    ((20000 : ℝ) ≤ max 6571 42164 →
      bielliptic_transfer 6571 42164 20000 398600 = Except.error ⟨6571, 42164, 20000⟩) ∧
    (max (6571 : ℝ) 42164 < 20000 →
      ∃ v, bielliptic_transfer 6571 42164 20000 398600 = Except.ok v) :=
  bielliptic_geometry 6571 42164 20000 398600 (by norm_num) (by norm_num) (by norm_num)

/-- C4: for every r > 0 and mu > 0, the degenerate Hohmann transfer from a
radius to itself returns dv1 = 0, dv2 = 0 and tof = pi * sqrt (r^3 / mu),
the half-period of the circular orbit, without failing. -/
theorem hohmann_equal_radii (r mu : ℝ) (hr : 0 < r) (hmu : 0 < mu) :
    (hohmann_transfer r r mu).dv1 = 0 ∧
    (hohmann_transfer r r mu).dv2 = 0 ∧
    (hohmann_transfer r r mu).tof = Real.pi * Real.sqrt (r ^ 3 / mu) := by
  have ha : (r + r) / 2 = r := by ring
  have hv : 2 / r - 1 / r = 1 / r := by
    rw [div_sub_div_same]
    norm_num
  refine ⟨?_, ?_, ?_⟩
  · have e1 : (hohmann_transfer r r mu).dv1 =
        |Real.sqrt (mu * (2 / r - 1 / ((r + r) / 2))) - Real.sqrt (mu / r)| := rfl
    rw [e1, ha, hv, mul_one_div, sub_self, abs_zero]
  · have e2 : (hohmann_transfer r r mu).dv2 =
        |Real.sqrt (mu / r) - Real.sqrt (mu * (2 / r - 1 / ((r + r) / 2)))| := rfl
    rw [e2, ha, hv, mul_one_div, sub_self, abs_zero]
  · have e3 : (hohmann_transfer r r mu).tof =
        Real.pi * Real.sqrt (((r + r) / 2) ^ 3 / mu) := rfl
    rw [e3, ha]

theorem hohmann_equal_radii_witness :
    (0 : ℝ) < 7000 ∧ (0 : ℝ) < 398600 ∧
    (hohmann_transfer 7000 7000 398600).dv1 = 0 :=
  ⟨by norm_num, by norm_num,
    (hohmann_equal_radii 7000 398600 (by norm_num) (by norm_num)).1⟩

/-- C7: for every r1 > 0, r2 > 0, mu > 0, the total Hohmann transfer cost
is direction-independent: dv_total of the transfer from r1 to r2 equals
dv_total of the transfer from r2 to r1. -/
theorem hohmann_dv_total_symm (r1 r2 mu : ℝ)
    (h1 : 0 < r1) (h2 : 0 < r2) (hmu : 0 < mu) :
    (hohmann_transfer r1 r2 mu).dv_total = (hohmann_transfer r2 r1 mu).dv_total := by
  have e1 : (hohmann_transfer r1 r2 mu).dv_total =
      |Real.sqrt (mu * (2 / r1 - 1 / ((r1 + r2) / 2))) - Real.sqrt (mu / r1)| +
        |Real.sqrt (mu / r2) - Real.sqrt (mu * (2 / r2 - 1 / ((r1 + r2) / 2)))| := rfl
  have e2 : (hohmann_transfer r2 r1 mu).dv_total =
      |Real.sqrt (mu * (2 / r2 - 1 / ((r2 + r1) / 2))) - Real.sqrt (mu / r2)| +
        |Real.sqrt (mu / r1) - Real.sqrt (mu * (2 / r1 - 1 / ((r2 + r1) / 2)))| := rfl
  rw [e1, e2, add_comm r2 r1,
    abs_sub_comm (Real.sqrt (mu * (2 / r2 - 1 / ((r1 + r2) / 2)))) (Real.sqrt (mu / r2)),
    abs_sub_comm (Real.sqrt (mu / r1)) (Real.sqrt (mu * (2 / r1 - 1 / ((r1 + r2) / 2)))),
    add_comm]

theorem hohmann_dv_total_symm_witness :
    (hohmann_transfer 6571 42164 398600).dv_total =
      (hohmann_transfer 42164 6571 398600).dv_total :=
  hohmann_dv_total_symm 6571 42164 398600 (by norm_num) (by norm_num) (by norm_num)

/-! ## Trajectory integrator (RK4) -/

/-- Integrator state: planar position and velocity vectors plus a time tag. -/
structure StateVector where
  position : ℝ × ℝ
  velocity : ℝ × ℝ
  time : ℝ

/-- Degenerate integration state, carrying the offending state. -/
structure SingularStateError where
  state : StateVector

/-- Position magnitude. -/
noncomputable def rMag (p : ℝ × ℝ) : ℝ :=
  Real.sqrt (p.1 ^ 2 + p.2 ^ 2)

/-- Modelled from the spec: numerical_integration.py is not under src/.
Two-body acceleration -mu * r / |r|^3. -/
noncomputable def accel (mu : ℝ) (p : ℝ × ℝ) : ℝ × ℝ :=
  (-(mu / rMag p ^ 3)) • p

/-- Modelled from the spec: numerical_integration.py is not under src/.
State derivative f(t, y) = [velocity, acceleration(position)] on the
combined position-velocity state (the two-body motion is autonomous). -/
noncomputable def derivFn (mu : ℝ) (y : (ℝ × ℝ) × (ℝ × ℝ)) : (ℝ × ℝ) × (ℝ × ℝ) :=
  (y.2, accel mu y.1)

/-- Modelled from the spec: numerical_integration.py is not under src/.
One classical RK4 step of size h on the combined state. -/
noncomputable def rk4_step (mu h : ℝ) (y : (ℝ × ℝ) × (ℝ × ℝ)) : (ℝ × ℝ) × (ℝ × ℝ) :=
  let k1 := derivFn mu y
  let k2 := derivFn mu (y + (h / 2) • k1)
  let k3 := derivFn mu (y + (h / 2) • k2)
  let k4 := derivFn mu (y + h • k3)
  y + (h / 6) • (k1 + (2 : ℝ) • k2 + (2 : ℝ) • k3 + k4)

/-- Advance a StateVector by one RK4 step, incrementing its time tag by h. -/
noncomputable def stepState (mu h : ℝ) (s : StateVector) : StateVector :=
  let y := rk4_step mu h (s.position, s.velocity)
  { position := y.1, velocity := y.2, time := s.time + h }

/-- Modelled from the spec: numerical_integration.py is not under src/.
Fixed-step propagation producing the ordered list of the initial state and
the stepCount following RK4 states; fails with SingularStateError, carrying
the offending state, as soon as a position magnitude fails to be positive. -/
noncomputable def propagate (mu h : ℝ) :
    StateVector → ℕ → Except SingularStateError (List StateVector)
  | s, 0 =>
      if rMag s.position ≤ 0 then Except.error ⟨s⟩ else Except.ok [s]
  | s, n + 1 =>
      if rMag s.position ≤ 0 then Except.error ⟨s⟩
      else Except.map (fun l => s :: l) (propagate mu h (stepState mu h s) n)

/-! ## Claims about the integrator -/

/-- C5: for every initial state whose propagation succeeds, every mu > 0,
step size h > 0 and step count n ≥ 0, propagate returns an ordered list of
exactly n + 1 StateVectors whose first element is the initial state and in
which each successive state is one RK4 step (of the two-body derivative)
applied to its predecessor. -/
theorem propagate_rk4_steps (mu h : ℝ) (hmu : 0 < mu) (hh : 0 < h) :
    ∀ (n : ℕ) (s : StateVector) (states : List StateVector),
      propagate mu h s n = Except.ok states →
      states.length = n + 1 ∧ states[0]? = some s ∧
        ∀ i, i < n → states[i + 1]? = Option.map (stepState mu h) states[i]? := by
  intro n
  induction n with
  | zero =>
      intro s states hok
      by_cases hc : rMag s.position ≤ 0
      · simp [propagate, hc] at hok
      · simp only [propagate, if_neg hc, Except.ok.injEq] at hok
        subst hok
        refine ⟨rfl, rfl, ?_⟩
        intro i hi
        omega
  | succ m ih =>
      intro s states hok
      by_cases hc : rMag s.position ≤ 0
      · simp [propagate, hc] at hok
      · simp only [propagate, if_neg hc] at hok
        cases hrec : propagate mu h (stepState mu h s) m with
        | error e =>
            rw [hrec] at hok
            simp [Except.map] at hok
        | ok l =>
            rw [hrec] at hok
            simp only [Except.map, Except.ok.injEq] at hok
            subst hok
            obtain ⟨hlen, hhead, hstep⟩ := ih (stepState mu h s) l hrec
            refine ⟨by simp [hlen], by simp, ?_⟩
            intro i hi
            cases i with
            | zero =>
                simpa using hhead
            | succ j =>
                have hj : j < m := by omega
                simpa using hstep j hj

theorem propagate_rk4_steps_witness :
    (0 : ℝ) < 1 ∧
    (([(⟨(1, 0), (0, 1), 0⟩ : StateVector)]).length = 0 + 1 ∧
      ([(⟨(1, 0), (0, 1), 0⟩ : StateVector)])[0]? = some ⟨(1, 0), (0, 1), 0⟩ ∧
      ∀ i, i < 0 →
        ([(⟨(1, 0), (0, 1), 0⟩ : StateVector)])[i + 1]? =
          Option.map (stepState 1 1) (([(⟨(1, 0), (0, 1), 0⟩ : StateVector)])[i]?)) := by
  have hok : propagate 1 1 ⟨(1, 0), (0, 1), 0⟩ 0 =
      Except.ok [⟨(1, 0), (0, 1), 0⟩] := by
    norm_num [propagate, rMag, Real.sqrt_one]
  exact ⟨by norm_num, propagate_rk4_steps 1 1 (by norm_num) (by norm_num) 0 _ _ hok⟩

/-- C6: propagation fails with SingularStateError exactly when some reached
state has position magnitude zero or negative within the step horizon; the
error carries the first offending state (every earlier state has positive
radius), and no default value is substituted. -/
theorem propagate_singular_iff (mu h : ℝ) :
    ∀ (n : ℕ) (s : StateVector),
      ((∃ e, propagate mu h s n = Except.error e) ↔
        ∃ k, k ≤ n ∧ rMag ((stepState mu h)^[k] s).position ≤ 0) ∧
      (∀ e, propagate mu h s n = Except.error e →
        ∃ k, k ≤ n ∧ e.state = (stepState mu h)^[k] s ∧
          rMag e.state.position ≤ 0 ∧
          ∀ j, j < k → 0 < rMag ((stepState mu h)^[j] s).position) := by
  intro n
  induction n with
  | zero =>
      intro s
      by_cases hc : rMag s.position ≤ 0
      · constructor
        · constructor
          · intro _
            exact ⟨0, le_refl 0, by simpa using hc⟩
          · intro _
            exact ⟨⟨s⟩, by simp [propagate, hc]⟩
        · intro e he
          simp only [propagate, if_pos hc, Except.error.injEq] at he
          refine ⟨0, le_refl 0, ?_, ?_, ?_⟩
          · rw [← he]
            simp
          · rw [← he]
            simpa using hc
          · intro j hj
            omega
      · constructor
        · constructor
          · rintro ⟨e, he⟩
            simp [propagate, hc] at he
          · rintro ⟨k, hk, hle⟩
            have hk0 : k = 0 := Nat.le_zero.mp hk
            subst hk0
            simp only [Function.iterate_zero_apply] at hle
            exact absurd hle hc
        · intro e he
          simp [propagate, hc] at he
  | succ m ih =>
      intro s
      by_cases hc : rMag s.position ≤ 0
      · constructor
        · constructor
          · intro _
            exact ⟨0, Nat.zero_le _, by simpa using hc⟩
          · intro _
            exact ⟨⟨s⟩, by simp [propagate, hc]⟩
        · intro e he
          simp only [propagate, if_pos hc, Except.error.injEq] at he
          refine ⟨0, Nat.zero_le _, ?_, ?_, ?_⟩
          · rw [← he]
            simp
          · rw [← he]
            simpa using hc
          · intro j hj
            omega
      · have hmap : ∀ e, (Except.map (fun l => s :: l)
              (propagate mu h (stepState mu h s) m) = Except.error e) ↔
            propagate mu h (stepState mu h s) m = Except.error e := by
          intro e
          cases hx : propagate mu h (stepState mu h s) m <;> simp [Except.map]
        obtain ⟨ih1, ih2⟩ := ih (stepState mu h s)
        constructor
        · constructor
          · rintro ⟨e, he⟩
            simp only [propagate, if_neg hc] at he
            rw [hmap] at he
            obtain ⟨k, hk, hle⟩ := ih1.mp ⟨e, he⟩
            exact ⟨k + 1, Nat.succ_le_succ hk, by rwa [Function.iterate_succ_apply]⟩
          · rintro ⟨k, hk, hle⟩
            cases k with
            | zero =>
                simp only [Function.iterate_zero_apply] at hle
                exact absurd hle hc
            | succ k =>
                rw [Function.iterate_succ_apply] at hle
                obtain ⟨e, he⟩ := ih1.mpr ⟨k, Nat.succ_le_succ_iff.mp hk, hle⟩
                refine ⟨e, ?_⟩
                simp only [propagate, if_neg hc]
                rw [hmap]
                exact he
        · intro e he
          simp only [propagate, if_neg hc] at he
          rw [hmap] at he
          obtain ⟨k, hk, hst, hle, hmin⟩ := ih2 e he
          refine ⟨k + 1, Nat.succ_le_succ hk, ?_, hle, ?_⟩
          · rwa [Function.iterate_succ_apply]
          · intro j hj
            cases j with
            | zero =>
                simpa using not_le.mp hc
            | succ j =>
                rw [Function.iterate_succ_apply]
                exact hmin j (Nat.succ_lt_succ_iff.mp hj)

theorem propagate_singular_iff_witness :
    ∃ e, propagate 1 1 ⟨(0, 0), (0, 0), 0⟩ 0 = Except.error e :=
  ((propagate_singular_iff 1 1 0 ⟨(0, 0), (0, 0), 0⟩).1).mpr
    ⟨0, le_refl 0, by simp [rMag, Real.sqrt_zero]⟩

/-! ## Central-body registry and the comparison feature -/

/-- Unknown central-body name, carrying the offending name. -/
structure UnknownBodyError where
  name : String

/-- Central body: name and gravitational parameter (the fields the
calculation path reads). -/
structure CentralBody where
  name : String
  mu : ℝ

/-- Modelled from the spec: constants.py is not under src/. One astronomical
unit in kilometers, 1 AU = 149,597,870.7 km. -/
noncomputable def AU_KM : ℝ := 149597870.7

/-- Modelled from the spec: constants.py is not under src/. Immutable
registry of the two supported bodies, with the gravitational parameters
stated in the repository README; fails with UnknownBodyError otherwise. -/
noncomputable def get_central_body (name : String) : Except UnknownBodyError CentralBody :=
  if name = "earth" then Except.ok ⟨"earth", 398600.4418⟩
  else if name = "sun" then Except.ok ⟨"sun", 132712440018⟩
  else Except.error ⟨name⟩

/-- Hohmann block of the assembled result, as formatted by the calculation
code in ui-controller.js (tof split into hours and days). -/
structure HohmannDisplay where
  dv1 : ℝ
  dv2 : ℝ
  dv_total : ℝ
  tof_hours : ℝ
  tof_days : ℝ

/-- Bi-elliptic block of the assembled result. -/
structure BiDisplay where
  dv1 : ℝ
  dv2 : ℝ
  dv3 : ℝ
  dv_total : ℝ
  tof_days : ℝ

/-- Assembled calculation result sent to the UI: the Hohmann block is always
present, the bi-elliptic block is None when the geometry was invalid. -/
structure AssembledResult where
  hohmann : HohmannDisplay
  bielliptic : Option BiDisplay
  body : String

/-- Formatting of a Hohmann result, from the Python string in
ui-controller.js. -/
noncomputable def hohmannDisplay (t : TransferResult) : HohmannDisplay :=
  { dv1 := t.dv1
    dv2 := t.dv2
    dv_total := t.dv_total
    tof_hours := t.tof / 3600
    tof_days := t.tof / 86400 }

/-- Formatting of a bi-elliptic result, from the Python string in
ui-controller.js. -/
noncomputable def biDisplay (v : BiellipticResult) : BiDisplay :=
  { dv1 := v.dv1
    dv2 := v.dv2
    dv3 := v.dv3
    dv_total := v.dv_total
    tof_days := v.tof / 86400 }

/-- Result assembly from the Python string in ui-controller.js: the Hohmann
transfer is computed unconditionally; the bi-elliptic transfer is attempted
once with the given radii, and a failure leaves the bielliptic entry None. -/
noncomputable def assembleResult (r1_km r2_km rb_km mu : ℝ) (bodyName : String) :
    AssembledResult :=
  { hohmann := hohmannDisplay (hohmann_transfer r1_km r2_km mu)
    bielliptic :=
      match bielliptic_transfer r1_km r2_km rb_km mu with
      | Except.error _ => none
      | Except.ok v => some (biDisplay v)
    body := bodyName }

/-- Calculation path of ui-controller.js: look up the central body, convert
AU to km when the body is the sun, pass km through unchanged otherwise, and
assemble the result from the solver outputs. -/
noncomputable def calculateTransfer (current_body : String) (r1 r2 rb : ℝ) :
    Except UnknownBodyError AssembledResult :=
  match get_central_body current_body with
  | Except.error e => Except.error e
  | Except.ok body =>
      if current_body = "sun" then
        Except.ok (assembleResult (r1 * AU_KM) (r2 * AU_KM) (rb * AU_KM) body.mu body.name)
      else
        Except.ok (assembleResult r1 r2 rb body.mu body.name)

/-! ## Claims about the comparison feature -/

/-- C3: the assembled result always carries the full Hohmann block for the
given r1, r2, mu; its bi-elliptic entry is None exactly when the geometry
is invalid (rb ≤ max r1 r2); and any present bi-elliptic entry is the
formatted output of the single bi-elliptic call with the original,
unclamped radii. -/
theorem bielliptic_failure_fallback (r1 r2 rb mu : ℝ) (b : String)
    (hfail : rb ≤ max r1 r2) :
    (assembleResult r1 r2 rb mu b).bielliptic = none ∧
    (assembleResult r1 r2 rb mu b).hohmann = hohmannDisplay (hohmann_transfer r1 r2 mu) ∧
    ∀ r1a r2a rba mua ba v,
      (assembleResult r1a r2a rba mua ba).bielliptic = some v →
      ∃ w, bielliptic_transfer r1a r2a rba mua = Except.ok w ∧ v = biDisplay w := by
  have herr : bielliptic_transfer r1 r2 rb mu = Except.error ⟨r1, r2, rb⟩ := by
    simp only [bielliptic_transfer, if_pos hfail]
  refine ⟨?_, rfl, ?_⟩
  · simp [assembleResult, herr]
  · intro r1a r2a rba mua ba v hv
    simp only [assembleResult] at hv
    cases hw : bielliptic_transfer r1a r2a rba mua with
    | error e =>
        rw [hw] at hv
        simp at hv
    | ok w =>
        rw [hw] at hv
        simp only [Option.some.injEq] at hv
        exact ⟨w, rfl, hv.symm⟩

theorem bielliptic_failure_fallback_witness :
    (assembleResult 6571 42164 20000 398600 "earth").bielliptic = none :=
  (bielliptic_failure_fallback 6571 42164 20000 398600 "earth"
    (by norm_num [le_max_iff])).1

/-- C8: with the sun selected, all three radii are multiplied by
AU_KM = 149,597,870.7 before the solvers run (the assembled result is the
one computed from the converted radii); with the earth selected, the radii
in kilometers reach the solvers unchanged. -/
theorem unit_normalization_before_solvers (r1 r2 rb : ℝ) :
    calculateTransfer "sun" r1 r2 rb =
      Except.ok (assembleResult (r1 * AU_KM) (r2 * AU_KM) (rb * AU_KM)
        132712440018 "sun") ∧
    calculateTransfer "earth" r1 r2 rb =
      Except.ok (assembleResult r1 r2 rb 398600.4418 "earth") := by
  constructor
  · simp [calculateTransfer, get_central_body]
  · simp [calculateTransfer, get_central_body]

/-! ## UI controller slider ranges (ui-controller.js) -/

/-- JavaScript values reaching the numeric controller fields: a number, the
NaN produced by failed coercions, or a plain slider-bounds object
with min, max and step properties. -/
inductive JSVal where
  | num (x : ℚ)
  | nan
  | range (rmin rmax rstep : ℚ)
deriving DecidableEq

/-- JavaScript ToNumber: a plain object (whose string form is not numeric)
coerces to NaN, modelled as no numeric value. -/
def JSVal.toNumber : JSVal → Option ℚ
  | JSVal.num x => some x
  | JSVal.nan => none
  | JSVal.range _ _ _ => none

/-- JavaScript multiplication: numeric when both operands coerce to
numbers, NaN otherwise. -/
def jsMul (a b : JSVal) : JSVal :=
  match a.toNumber, b.toNumber with
  | some x, some y => JSVal.num (x * y)
  | _, _ => JSVal.nan

/-- Per-body slider configuration from updateSliderRanges: the r1, r2 and
rb entries are slider-bounds objects, the defaults are numbers. -/
structure BodyConfig where
  r1 : JSVal
  r2 : JSVal
  rb : JSVal
  r1Default : ℚ
  r2Default : ℚ

/-- The earth entry of bodyConfigs in ui-controller.js. -/
def earthConfig : BodyConfig :=
  { r1 := JSVal.range 6671 50000 100
    r2 := JSVal.range 6671 500000 1000
    rb := JSVal.range 70000 1000000 5000
    r1Default := 6571
    r2Default := 42164 }

/-- The sun entry of bodyConfigs in ui-controller.js. -/
def sunConfig : BodyConfig :=
  { r1 := JSVal.range 0.3 2.0 0.01
    r2 := JSVal.range 0.5 10.0 0.1
    rb := JSVal.range 2.0 20.0 0.5
    r1Default := 1.0
    r2Default := 1.524 }

/-- The bodyConfigs lookup of ui-controller.js. -/
def bodyConfigs (name : String) : Option BodyConfig :=
  if name = "earth" then some earthConfig
  else if name = "sun" then some sunConfig
  else none

/-- The numeric controller fields written by updateSliderRanges. -/
structure ControllerState where
  r1 : JSVal
  r2 : JSVal
  rb : JSVal

/-- updateSliderRanges from ui-controller.js: picks the body configuration
(falling back to earth), sets r1 and r2 to the numeric defaults, and sets
rb to config.rb * 2 — a JavaScript multiplication of the slider-bounds
object by a number. -/
def updateSliderRanges (currentBody : String) : ControllerState :=
  let config := (bodyConfigs currentBody).getD earthConfig
  { r1 := JSVal.num config.r1Default
    r2 := JSVal.num config.r2Default
    rb := jsMul config.rb (JSVal.num 2) }

/-- C9: for every central-body selection, after updateSliderRanges the
controller rb field is NaN, because it is assigned config.rb * 2 where
config.rb is the slider-bounds object rather than a number. -/
theorem updateSliderRanges_rb_nan (body : String) :
    (updateSliderRanges body).rb = JSVal.nan := by
  unfold updateSliderRanges
  by_cases h1 : body = "earth" <;> by_cases h2 : body = "sun" <;>
    simp [bodyConfigs, h1, h2, jsMul, JSVal.toNumber, earthConfig, sunConfig]

theorem updateSliderRanges_rb_nan_witness :
    (updateSliderRanges "sun").rb = JSVal.nan :=
  updateSliderRanges_rb_nan "sun"

/-! ## Python-module loader (pyodide-loader.js) -/

/-- The four required Python modules, in the load order of
loadPythonModules. -/
def moduleNames : List String :=
  ["constants.py", "orbital_mechanics.py", "numerical_integration.py", "visualization.py"]

/-- The required-module list of areModulesLoaded. -/
def requiredModules : List String :=
  ["constants.py", "orbital_mechanics.py", "numerical_integration.py", "visualization.py"]

/-- Maximum number of fetch attempts per module. -/
def maxRetries : ℕ := 3

/-- The attempt numbers tried by the retry loop, 1 through maxRetries. -/
def attemptNumbers : List ℕ :=
  (List.range maxRetries).map (fun i => i + 1)

/-- Whether one fetch attempt succeeds: the fetch must return a body (no
HTTP error and no thrown exception) and the body must be nonempty after
trimming. The oracle gives the outcome of each (module, attempt) fetch. -/
def attemptSucceeds (oracle : String → ℕ → Option String) (m : String) (a : ℕ) : Bool :=
  match oracle m a with
  | some code => !(code.trim.length == 0)
  | none => false

/-- The retry loop of loadPythonModules for one module: attempts run in
order 1, 2, ... and stop at the first success; the result is the number of
the successful attempt, or none when all maxRetries attempts failed. -/
def loadModule (oracle : String → ℕ → Option String) (m : String) : Option ℕ :=
  attemptNumbers.find? (fun a => attemptSucceeds oracle m a)

/-- loadPythonModules: each module is loaded with the retry loop; modules
that fail every attempt are collected, and if any failed the whole load
throws an error naming exactly the failed modules; otherwise the loaded
set is returned. -/
def loadPythonModules (oracle : String → ℕ → Option String) :
    Except (List String) (List String) :=
  let failed := moduleNames.filter (fun m => (loadModule oracle m).isNone)
  let loaded := moduleNames.filter (fun m => (loadModule oracle m).isSome)
  if failed.isEmpty then Except.ok loaded else Except.error failed

/-- areModulesLoaded: every required module name is in the loaded set. -/
def areModulesLoaded (loaded : List String) : Bool :=
  requiredModules.all (fun m => loaded.contains m)

/-- C10: each module is fetched at most maxRetries = 3 times, a successful
load number is a successful attempt within the bound; when some module
fails every attempt the loader throws an error naming exactly the modules
that failed all their attempts (never continuing with a partial set); and
after a successful load every required module is loaded, so
areModulesLoaded returns true. -/
theorem loadPythonModules_retry_and_complete (oracle : String → ℕ → Option String) :
    (∀ m a, loadModule oracle m = some a →
      1 ≤ a ∧ a ≤ maxRetries ∧ attemptSucceeds oracle m a = true) ∧
    (∀ fs, loadPythonModules oracle = Except.error fs →
      fs = moduleNames.filter (fun m => (loadModule oracle m).isNone) ∧ fs ≠ []) ∧
    ((∃ m ∈ moduleNames, loadModule oracle m = none) →
      ∃ fs, loadPythonModules oracle = Except.error fs) ∧
    (∀ loaded, loadPythonModules oracle = Except.ok loaded →
      areModulesLoaded loaded = true) := by
  refine ⟨?_, ?_, ?_, ?_⟩
  · intro m a hfind
    have hmem : a ∈ attemptNumbers := List.mem_of_find?_eq_some hfind
    have hsucc : attemptSucceeds oracle m a = true := List.find?_some hfind
    have hrange : a = 1 ∨ a = 2 ∨ a = 3 := by
      simpa [attemptNumbers, maxRetries, List.range_succ] using hmem
    refine ⟨?_, ?_, hsucc⟩ <;> (rcases hrange with h | h | h <;> simp [h, maxRetries])
  · intro fs herr
    simp only [loadPythonModules] at herr
    by_cases hemp : (moduleNames.filter (fun m => (loadModule oracle m).isNone)).isEmpty = true
    · rw [if_pos hemp] at herr
      exact absurd herr (by simp)
    · rw [if_neg hemp] at herr
      simp only [Except.error.injEq] at herr
      refine ⟨herr.symm, ?_⟩
      intro hnil
      exact hemp (by rw [herr, hnil]; rfl)
  · rintro ⟨m, hm, hnone⟩
    have hmemf : m ∈ moduleNames.filter (fun m => (loadModule oracle m).isNone) := by
      simp [List.mem_filter, hm, hnone]
    have hemp : ¬((moduleNames.filter (fun m => (loadModule oracle m).isNone)).isEmpty = true) := by
      intro habs
      rw [List.isEmpty_iff] at habs
      rw [habs] at hmemf
      simp at hmemf
    simp only [loadPythonModules]
    rw [if_neg hemp]
    exact ⟨_, rfl⟩
  · intro loaded hok
    simp only [loadPythonModules] at hok
    by_cases hemp : (moduleNames.filter (fun m => (loadModule oracle m).isNone)).isEmpty = true
    · rw [if_pos hemp] at hok
      simp only [Except.ok.injEq] at hok
      have hall : ∀ m ∈ moduleNames, (loadModule oracle m).isSome := by
        intro m hm
        by_contra hno
        have hnone : (loadModule oracle m).isNone := by
          rcases hq : loadModule oracle m with _ | a
          · simp
          · rw [hq] at hno
            simp at hno
        have hmemf : m ∈ moduleNames.filter (fun m => (loadModule oracle m).isNone) := by
          simp [List.mem_filter, hm, hnone]
        rw [List.isEmpty_iff] at hemp
        rw [hemp] at hmemf
        simp at hmemf
      have hfull : moduleNames.filter (fun m => (loadModule oracle m).isSome) = moduleNames :=
        List.filter_eq_self.mpr hall
      rw [hfull] at hok
      subst hok
      decide
    · rw [if_neg hemp] at hok
      exact absurd hok (by simp)

theorem loadPythonModules_retry_and_complete_witness :
    ∃ fs, loadPythonModules (fun _ _ => none) = Except.error fs :=
  (loadPythonModules_retry_and_complete (fun _ _ => none)).2.2.1
    ⟨"constants.py", by simp [moduleNames], rfl⟩
